import Mathlib

/-!
# Badminton Statistics Analyzer — shallow embedding

A shallow embedding of the metrics-computation core of the badminton
statistics analyzer (`badminton_analyzer.py`).  The SQLite database is
modelled as lists of rows; SQL aggregates (`SUM`, `AVG`, `COUNT`) over an
empty row set yield `NULL`, modelled as `Option`.  Python operations that
would raise `TypeError` when applied to `None` (e.g. `None > 0`) are
modelled in the `Except PyError` monad.  `ROUND(x, 2)` is modelled as
rounding to the nearest multiple of 1/100 over `ℚ`.
-/

/-- Python runtime errors raised by the analyzer's code paths. -/
inductive PyError where
  | typeError : PyError
  | valueError : PyError
deriving DecidableEq, Repr

/-- Model of SQL `ROUND(x, 2)` / Python `round(x, 2)`: rounding to the nearest multiple
of 1/100 (rounding modelled over `ℚ`). -/
def round2 (x : ℚ) : ℚ := (round (100 * x) : ℤ) / 100

/-- A Python float that is either finite or `float('inf')` (the sentinel
returned for a winner/error ratio with zero unforced errors). -/
inductive PyNum where
  | fin (q : ℚ) : PyNum
  | inf : PyNum
deriving DecidableEq, Repr

/-- A row of the `players` table (the columns the analyzer reads). -/
structure Player where
  player_id : Int
  first_name : String
  last_name : String
  nationality : String
  world_ranking : Option Int
  dominant_hand : String
  birth_date : Option String
deriving DecidableEq, Repr

/-- A row of the `matches` table (the columns the analyzer reads). -/
structure MatchRow where
  match_id : Int
  tournament_id : Int
  match_date : String
  status : String
  duration_minutes : Nat
deriving DecidableEq, Repr

/-- A row of the `match_participants` table. -/
structure Participant where
  match_id : Int
  player_id : Int
  is_winner : Int
deriving DecidableEq, Repr

/-- A row of the `match_statistics` table: raw non-negative counters for
one (match, player) pair. -/
structure StatRow where
  player_id : Int
  total_serves : Nat
  service_aces : Nat
  service_faults : Nat
  winners : Nat
  unforced_errors : Nat
  points_won : Nat
  points_played : Nat
  smashes : Nat
  clears : Nat
  drops : Nat
  drives : Nat
  net_shots : Nat
  lobs : Nat
  kills : Nat
  short_rallies_played : Nat
  short_rallies_won : Nat
  medium_rallies_played : Nat
  medium_rallies_won : Nat
  long_rallies_played : Nat
  long_rallies_won : Nat
deriving DecidableEq, Repr

/-- A row of the `head_to_head` table. -/
structure H2HRow where
  player1_id : Int
  player2_id : Int
  player1_wins : Nat
  player2_wins : Nat
deriving DecidableEq, Repr

/-- The database visible to the analyzer.  (The `matches` table is named
`matchesTable` here because `matches` is a Lean keyword.) -/
structure DB where
  players : List Player
  matchesTable : List MatchRow
  match_participants : List Participant
  match_statistics : List StatRow
  head_to_head : List H2HRow

/-- SQL `SUM(f)` over a row set: `NULL` (`none`) when the set is empty. -/
def sqlSum (rows : List StatRow) (f : StatRow → Nat) : Option Nat :=
  if rows.isEmpty then none else some ((rows.map f).sum)

/-- SQL `AVG` over a list of non-`NULL` values: `NULL` when empty. -/
def sqlAvg (xs : List ℚ) : Option ℚ :=
  if xs.isEmpty then none else some (xs.sum / xs.length)

/-- Python `x > c` where `x` came from a SQL column that may be `NULL`:
comparing `None` with a number raises `TypeError`. -/
def pyGtO (x : Option ℚ) (c : ℚ) : Except PyError Bool :=
  match x with
  | none => .error .typeError
  | some q => .ok (decide (q > c))

/-- Python `x < c` on a possibly-`None` value. -/
def pyLtO (x : Option ℚ) (c : ℚ) : Except PyError Bool :=
  match x with
  | none => .error .typeError
  | some q => .ok (decide (q < c))

/-- Python `x > n` on a possibly-`None` SQL sum of integer counters. -/
def pyGtONat (x : Option Nat) (n : Nat) : Except PyError Bool :=
  match x with
  | none => .error .typeError
  | some m => .ok (decide (m > n))

/-- The statistics rows of one player (`WHERE player_id = ?`). -/
def statRowsOf (db : DB) (player_id : Int) : List StatRow :=
  db.match_statistics.filter (fun r => r.player_id == player_id)

section ShotDistribution

/-- The raw aggregate row of `get_shot_distribution_analysis`'s query
(`SUM`s are `NULL` when the player has no statistics rows). -/
structure ShotRaw where
  total_smashes : Option Nat
  total_clears : Option Nat
  total_drops : Option Nat
  total_drives : Option Nat
  total_net_shots : Option Nat
  total_lobs : Option Nat
  total_kills : Option Nat
  total_winners : Option Nat
  total_unforced_errors : Option Nat
  total_matches : Nat
deriving DecidableEq, Repr

/-- The derived distribution keys merged into the result when
`total_matches > 0`. -/
structure ShotDist where
  smash_percentage : ℚ
  clear_percentage : ℚ
  drop_percentage : ℚ
  drive_percentage : ℚ
  net_shot_percentage : ℚ
  lob_percentage : ℚ
  kill_percentage : ℚ
  total_shots : Nat
  winner_to_error_ratio : PyNum
deriving DecidableEq, Repr

/-- Result of `get_shot_distribution_analysis`: the raw aggregates, plus
the distribution keys exactly when `total_matches > 0`. -/
structure ShotAnalysis where
  raw : ShotRaw
  dist : Option ShotDist
deriving DecidableEq, Repr

/-- Embedding of `BadmintonAnalyzer.get_shot_distribution_analysis`.  The aggregate
query always returns one row; the distribution is computed only in the
`total_matches > 0` branch, where all sums are non-`NULL` integers (so
`Option.getD 0` reads the value that is present). -/
def get_shot_distribution_analysis (db : DB) (player_id : Int) : ShotAnalysis :=
  let rows := statRowsOf db player_id
  let result : ShotRaw :=
    { total_smashes := sqlSum rows (·.smashes)
      total_clears := sqlSum rows (·.clears)
      total_drops := sqlSum rows (·.drops)
      total_drives := sqlSum rows (·.drives)
      total_net_shots := sqlSum rows (·.net_shots)
      total_lobs := sqlSum rows (·.lobs)
      total_kills := sqlSum rows (·.kills)
      total_winners := sqlSum rows (·.winners)
      total_unforced_errors := sqlSum rows (·.unforced_errors)
      total_matches := rows.length }
  if result.total_matches > 0 then
    let total_shots : Nat :=
      result.total_smashes.getD 0 + result.total_clears.getD 0 +
      result.total_drops.getD 0 + result.total_drives.getD 0 +
      result.total_net_shots.getD 0 + result.total_lobs.getD 0 +
      result.total_kills.getD 0
    let pct (shot : Option Nat) : ℚ :=
      if total_shots > 0 then round2 ((shot.getD 0 : ℚ) / total_shots * 100) else 0
    { raw := result
      dist := some
        { smash_percentage := pct result.total_smashes
          clear_percentage := pct result.total_clears
          drop_percentage := pct result.total_drops
          drive_percentage := pct result.total_drives
          net_shot_percentage := pct result.total_net_shots
          lob_percentage := pct result.total_lobs
          kill_percentage := pct result.total_kills
          total_shots := total_shots
          winner_to_error_ratio :=
            if result.total_unforced_errors.getD 0 > 0 then
              .fin (round2 ((result.total_winners.getD 0 : ℚ) /
                (result.total_unforced_errors.getD 0 : ℚ)))
            else .inf } }
  else
    { raw := result, dist := none }

end ShotDistribution

section RallyAnalysis

/-- The raw aggregate row of `get_rally_length_analysis`'s query. -/
structure RallyRaw where
  total_short_rallies : Option Nat
  short_rallies_won : Option Nat
  total_medium_rallies : Option Nat
  medium_rallies_won : Option Nat
  total_long_rallies : Option Nat
  long_rallies_won : Option Nat
  total_matches : Nat
deriving DecidableEq, Repr

/-- Result of `get_rally_length_analysis` when no `TypeError` is raised. -/
structure RallyResult where
  raw : RallyRaw
  short_rally_win_rate : ℚ
  medium_rally_win_rate : ℚ
  long_rally_win_rate : ℚ
  preferred_rally_length : String
deriving DecidableEq, Repr

/-- One bucket's win rate:
`round((won / played) * 100, 2) if played > 0 else 0`.
The guard compares a possibly-`NULL` sum with `0`, which raises
`TypeError` in Python when the sum is `None`; when the guard passes, both
sums are present integers (`Option.getD 0` reads the present value). -/
def rallyRate (won played : Option Nat) : Except PyError ℚ :=
  match pyGtONat played 0 with
  | .error e => .error e
  | .ok true => .ok (round2 ((won.getD 0 : ℚ) / (played.getD 0 : ℚ) * 100))
  | .ok false => .ok 0

/-- Python's `max(xs, key=lambda x: x[1])` over a non-empty list: the fold
keeps the current best unless a later element is strictly greater, so the
first maximal element wins. -/
def pyMaxByVal : (String × ℚ) → List (String × ℚ) → (String × ℚ)
  | best, [] => best
  | best, x :: xs => pyMaxByVal (if x.2 > best.2 then x else best) xs

/-- Embedding of `BadmintonAnalyzer.get_rally_length_analysis`.  The aggregate query
always returns one (truthy) row, so the `if result:` guard is passed
unconditionally; the three win-rate guards then compare possibly-`NULL`
sums with `0`, raising `TypeError` when the player has no statistics
rows. -/
def get_rally_length_analysis (db : DB) (player_id : Int) :
    Except PyError RallyResult :=
  let rows := statRowsOf db player_id
  let result : RallyRaw :=
    { total_short_rallies := sqlSum rows (·.short_rallies_played)
      short_rallies_won := sqlSum rows (·.short_rallies_won)
      total_medium_rallies := sqlSum rows (·.medium_rallies_played)
      medium_rallies_won := sqlSum rows (·.medium_rallies_won)
      total_long_rallies := sqlSum rows (·.long_rallies_played)
      long_rallies_won := sqlSum rows (·.long_rallies_won)
      total_matches := rows.length }
  match rallyRate result.short_rallies_won result.total_short_rallies with
  | .error e => .error e
  | .ok s =>
    match rallyRate result.medium_rallies_won result.total_medium_rallies with
    | .error e => .error e
    | .ok m =>
      match rallyRate result.long_rallies_won result.total_long_rallies with
      | .error e => .error e
      | .ok l =>
        .ok { raw := result
              short_rally_win_rate := s
              medium_rally_win_rate := m
              long_rally_win_rate := l
              preferred_rally_length :=
                (pyMaxByVal ("short", s) [("medium", m), ("long", l)]).1 }

end RallyAnalysis

section StatisticsSummary

/-- Result row of `get_player_statistics_summary`'s aggregate query.
Each `AVG` excludes rows whose `NULLIF` denominator is zero (those rows
contribute `NULL`, which SQL `AVG` skips) and is `NULL` when no row
contributes. -/
structure StatsSummary where
  total_matches : Nat
  avg_serves : Option ℚ
  ace_percentage : Option ℚ
  fault_percentage : Option ℚ
  avg_winners : Option ℚ
  avg_unforced_errors : Option ℚ
  winner_to_error_ratio : Option ℚ
  points_won_percentage : Option ℚ
  total_smashes : Option Nat
  total_clears : Option Nat
  total_drops : Option Nat
  total_net_shots : Option Nat
deriving DecidableEq, Repr

/-- Model of `AVG(num * 1.0 / NULLIF(den, 0)) * 100` with SQL `NULL` skipping. -/
def avgRatioPct (rows : List StatRow) (num den : StatRow → Nat) : Option ℚ :=
  (sqlAvg (rows.filterMap (fun r =>
    if den r = 0 then none else some ((num r : ℚ) / (den r : ℚ))))).map (· * 100)

/-- Model of `AVG(num * 1.0 / NULLIF(den, 0))` (no `* 100`) with `NULL` skipping. -/
def avgRatio (rows : List StatRow) (num den : StatRow → Nat) : Option ℚ :=
  sqlAvg (rows.filterMap (fun r =>
    if den r = 0 then none else some ((num r : ℚ) / (den r : ℚ))))

/-- Embedding of `BadmintonAnalyzer.get_player_statistics_summary`.  The aggregate
query always returns exactly one row, so the Python
`result[0] if result else {}` always returns the record. -/
def get_player_statistics_summary (db : DB) (player_id : Int) : StatsSummary :=
  let rows := statRowsOf db player_id
  { total_matches := rows.length
    avg_serves := sqlAvg (rows.map (fun r => (r.total_serves : ℚ)))
    ace_percentage := avgRatioPct rows (·.service_aces) (·.total_serves)
    fault_percentage := avgRatioPct rows (·.service_faults) (·.total_serves)
    avg_winners := sqlAvg (rows.map (fun r => (r.winners : ℚ)))
    avg_unforced_errors := sqlAvg (rows.map (fun r => (r.unforced_errors : ℚ)))
    winner_to_error_ratio := avgRatio rows (·.winners) (·.unforced_errors)
    points_won_percentage := avgRatioPct rows (·.points_won) (·.points_played)
    total_smashes := sqlSum rows (·.smashes)
    total_clears := sqlSum rows (·.clears)
    total_drops := sqlSum rows (·.drops)
    total_net_shots := sqlSum rows (·.net_shots) }

end StatisticsSummary

section PlayerProfile

/-- One result row of `get_player_profile`'s grouped query. -/
structure ProfileRecord where
  player : Player
  total_matches : Nat
  matches_won : Nat
  win_percentage : ℚ
  avg_match_duration : Option ℚ
  last_match_date : Option String
  tournaments_played : Nat
deriving DecidableEq, Repr

/-- The rows of `players LEFT JOIN match_participants LEFT JOIN matches`
for one player: a single all-`NULL` participant row when the player has
no participations; otherwise each participation joined with the matching
`COMPLETED` matches (a `NULL` match when none matches). -/
def profileJoinRows (db : DB) (player_id : Int) :
    List (Option Participant × Option MatchRow) :=
  let mps := db.match_participants.filter (fun mp => mp.player_id == player_id)
  if mps.isEmpty then [(none, none)]
  else mps.flatMap (fun mp =>
    let ms := db.matchesTable.filter (fun m =>
      m.match_id == mp.match_id && m.status == "COMPLETED")
    if ms.isEmpty then [(some mp, none)] else ms.map (fun m => (some mp, some m)))

/-- SQL `MAX` over a list of strings: `NULL` when empty. -/
def sqlMaxStr (xs : List String) : Option String :=
  xs.foldl (fun acc s =>
    match acc with
    | none => some s
    | some t => some (if t < s then s else t)) none

/-- Embedding of `BadmintonAnalyzer.get_player_profile`.  `WHERE p.player_id = ?`
with `GROUP BY p.player_id` yields one group when the player row exists
and none otherwise; `result[0] if result else {}` is the `Option`. -/
def get_player_profile (db : DB) (player_id : Int) : Option ProfileRecord :=
  match db.players.find? (fun p => p.player_id == player_id) with
  | none => none
  | some p =>
    let rows := profileJoinRows db player_id
    let completed := rows.filterMap (·.2)
    let winFlag : Option Participant × Option MatchRow → Nat := fun r =>
      match r.1 with
      | some mp => if mp.is_winner == 1 then 1 else 0
      | none => 0
    some
      { player := p
        total_matches := (completed.map (·.match_id)).dedup.length
        matches_won := (rows.map winFlag).sum
        win_percentage :=
          round2 ((rows.map (fun r => (winFlag r : ℚ))).sum /
            (rows.length : ℚ) * 100)
        avg_match_duration :=
          sqlAvg (completed.map (fun m => (m.duration_minutes : ℚ)))
        last_match_date := sqlMaxStr (completed.map (·.match_date))
        tournaments_played := (completed.map (·.tournament_id)).dedup.length }

end PlayerProfile

section HeadToHead

/-- One result row of `get_head_to_head`'s query: the `head_to_head` row
joined with both players' names. -/
structure H2HRecord where
  h : H2HRow
  player1_name : String
  player2_name : String
deriving DecidableEq, Repr

/-- Embedding of `BadmintonAnalyzer.get_head_to_head`.  The four query parameters are
`(min, max, min, max)` of the two arguments; the `WHERE` clause tests the
stored pair against `(?1, ?2)` or `(?3, ?4)`. -/
def get_head_to_head (db : DB) (player1_id player2_id : Int) :
    Option H2HRecord :=
  let q1 := min player1_id player2_id
  let q2 := max player1_id player2_id
  let q3 := min player1_id player2_id
  let q4 := max player1_id player2_id
  let rows := db.head_to_head.flatMap (fun h =>
    if (h.player1_id == q1 && h.player2_id == q2) ||
       (h.player1_id == q3 && h.player2_id == q4) then
      (db.players.filter (fun p1 => p1.player_id == h.player1_id)).flatMap
        (fun p1 =>
          (db.players.filter (fun p2 => p2.player_id == h.player2_id)).map
            (fun p2 =>
              { h := h
                player1_name := p1.first_name ++ " " ++ p1.last_name
                player2_name := p2.first_name ++ " " ++ p2.last_name }))
    else [])
  rows.head?

end HeadToHead

section RecentForm

/-- A recent-match row as consumed by `_calculate_recent_form`: only the
`is_winner` flag matters (`NULL` is falsy in Python's truthiness test). -/
structure RecentRow where
  is_winner : Option Int
deriving DecidableEq, Repr

/-- Python truthiness of `match.get('is_winner')`. -/
def isWinnerTruthy (r : RecentRow) : Bool :=
  match r.is_winner with
  | none => false
  | some n => n != 0

/-- Embedding of `BadmintonAnalyzer._calculate_recent_form` (leading underscore
dropped): classify a list of recent matches into a form band. -/
def calculate_recent_form (recent_matches : List RecentRow) : String :=
  if recent_matches.isEmpty then "No recent data"
  else
    let wins := (recent_matches.filter isWinnerTruthy).length
    let total := recent_matches.length
    let win_rate : ℚ := ((wins : ℚ) / (total : ℚ)) * 100
    if win_rate ≥ 80 then "Excellent"
    else if win_rate ≥ 60 then "Good"
    else if win_rate ≥ 40 then "Average"
    else "Poor"

/-- The win rate computed inside `_calculate_recent_form`. -/
def recentWinRate (recent_matches : List RecentRow) : ℚ :=
  (((recent_matches.filter isWinnerTruthy).length : ℚ) /
    (recent_matches.length : ℚ)) * 100

end RecentForm

section Scouting

/-- Python's `if x > hi: ... elif x < lo: ...` over a possibly-`None`
value: returns (strength-triggered, weakness-triggered).  The `elif`
comparison is evaluated only when the first is false. -/
def thresholdPick (x : Option ℚ) (hi lo : ℚ) : Except PyError (Bool × Bool) :=
  match pyGtO x hi with
  | .error e => .error e
  | .ok true => .ok (true, false)
  | .ok false =>
    match pyLtO x lo with
    | .error e => .error e
    | .ok b => .ok (false, b)

/-- The strengths/weaknesses block of
`BadmintonAnalyzer.generate_scouting_report`.  As in the source, the
rally-length analysis is computed (and can raise) before the threshold
comparisons; the winner/error and ace thresholds compare possibly-`NULL`
summary averages and can raise `TypeError`; the smash and rally tests
operate on always-present values. -/
def scoutingStrengths (db : DB) (player_id : Int) :
    Except PyError (List String × List String) :=
  let stats_summary := get_player_statistics_summary db player_id
  let shot_analysis := get_shot_distribution_analysis db player_id
  match get_rally_length_analysis db player_id with
  | .error e => .error e
  | .ok rally_analysis =>
    match thresholdPick stats_summary.winner_to_error_ratio (3/2) (4/5) with
    | .error e => .error e
    | .ok (accB, errB) =>
      match thresholdPick stats_summary.ace_percentage 8 3 with
      | .error e => .error e
      | .ok (serveB, serveWB) =>
        let smashB : Bool :=
          decide (((shot_analysis.dist.map (·.smash_percentage)).getD 0) > 25)
        let endurB : Bool :=
          decide (rally_analysis.long_rally_win_rate >
            rally_analysis.short_rally_win_rate)
        .ok
          ((if accB then ["Excellent shot accuracy and low error rate"] else []) ++
           (if serveB then ["Strong serving game"] else []) ++
           (if smashB then ["Aggressive attacking style"] else []) ++
           (if endurB then ["Strong endurance and long rally performance"]
            else ["Quick point finishing ability"]),
           (if errB then ["High unforced error rate"] else []) ++
           (if serveWB then ["Weak serving game"] else []))

end Scouting

section ComparePlayers

/-- One player's entry in `compare_players`'s result. -/
structure CompRecord where
  name : String
  nationality : String
  ranking : Option Int
  matches_played : Nat
  win_percentage : ℚ
  points_won_percentage : Option ℚ
  winner_to_error_ratio : Option ℚ
  ace_percentage : Option ℚ
  preferred_rally_length : String
  smash : ℚ
  clear : ℚ
  drop : ℚ
  net_shot : ℚ
deriving DecidableEq, Repr

/-- The body of `compare_players`'s loop for one player id: the profile,
summary and shot analysis never raise; the rally-length analysis may
raise `TypeError`, which propagates. -/
def comparisonRecord (db : DB) (player_id : Int) :
    Except PyError CompRecord :=
  let profile := get_player_profile db player_id
  let stats := get_player_statistics_summary db player_id
  let shot_analysis := get_shot_distribution_analysis db player_id
  match get_rally_length_analysis db player_id with
  | .error e => .error e
  | .ok rally_analysis =>
    .ok
      { name :=
          ((profile.map (·.player.first_name)).getD "") ++ " " ++
          ((profile.map (·.player.last_name)).getD "")
        nationality := (profile.map (·.player.nationality)).getD ""
        ranking := (profile.map (·.player.world_ranking)).getD none
        matches_played := (profile.map (·.total_matches)).getD 0
        win_percentage := (profile.map (·.win_percentage)).getD 0
        points_won_percentage := stats.points_won_percentage
        winner_to_error_ratio := stats.winner_to_error_ratio
        ace_percentage := stats.ace_percentage
        preferred_rally_length := rally_analysis.preferred_rally_length
        smash := (shot_analysis.dist.map (·.smash_percentage)).getD 0
        clear := (shot_analysis.dist.map (·.clear_percentage)).getD 0
        drop := (shot_analysis.dist.map (·.drop_percentage)).getD 0
        net_shot := (shot_analysis.dist.map (·.net_shot_percentage)).getD 0 }

/-- Python dict assignment `d[k] = v`: replace the value when the key is
present, append otherwise. -/
def dictInsert (d : List (Int × CompRecord)) (k : Int) (v : CompRecord) :
    List (Int × CompRecord) :=
  if d.any (fun kv => kv.1 == k) then
    d.map (fun kv => if kv.1 == k then (k, v) else kv)
  else d ++ [(k, v)]

/-- Embedding of `BadmintonAnalyzer.compare_players`: raises `ValueError` for fewer
than two ids, otherwise builds the per-player comparison dict. -/
def compare_players (db : DB) (player_ids : List Int) :
    Except PyError (List (Int × CompRecord)) :=
  if player_ids.length < 2 then .error .valueError
  else player_ids.foldlM (fun d pid =>
    match comparisonRecord db pid with
    | .error e => .error e
    | .ok rec => .ok (dictInsert d pid rec)) []

end ComparePlayers

section Examples

/-- A player row used in the concrete test stores. -/
def examplePlayer (pid : Int) (fn ln : String) : Player :=
  { player_id := pid
    first_name := fn
    last_name := ln
    nationality := "X"
    world_ranking := some 1
    dominant_hand := "RIGHT"
    birth_date := none }

/-- A statistics row whose shot counters are the worked example of the
specification: winners 20, unforced errors 10, smashes 30, clears 20,
drops 10, drives 10, net shots 10, lobs 10, kills 10. -/
def exStatRow1 : StatRow :=
  { player_id := 1
    total_serves := 100
    service_aces := 5
    service_faults := 5
    winners := 20
    unforced_errors := 10
    points_won := 50
    points_played := 100
    smashes := 30
    clears := 20
    drops := 10
    drives := 10
    net_shots := 10
    lobs := 10
    kills := 10
    short_rallies_played := 0
    short_rallies_won := 0
    medium_rallies_played := 0
    medium_rallies_won := 0
    long_rallies_played := 0
    long_rallies_won := 0 }

/-- A second player's statistics row. -/
def exStatRow2 : StatRow :=
  { exStatRow1 with player_id := 2, smashes := 10, winners := 5 }

/-- A statistics row with zero winners and zero unforced errors. -/
def exStatRow3 : StatRow :=
  { player_id := 3
    total_serves := 0
    service_aces := 0
    service_faults := 0
    winners := 0
    unforced_errors := 0
    points_won := 0
    points_played := 0
    smashes := 1
    clears := 0
    drops := 0
    drives := 0
    net_shots := 0
    lobs := 0
    kills := 0
    short_rallies_played := 0
    short_rallies_won := 0
    medium_rallies_played := 0
    medium_rallies_won := 0
    long_rallies_played := 0
    long_rallies_won := 0 }

/-- A store holding player 1 with no matches and no statistics rows. -/
def exDB1 : DB :=
  { players := [examplePlayer 1 "Ana" "Lee"]
    matchesTable := []
    match_participants := []
    match_statistics := []
    head_to_head := [] }

/-- A store with statistics rows for players 1, 2 and 3 (player 1 holds
the specification's worked example). -/
def exDB9 : DB :=
  { players := [examplePlayer 1 "Ana" "Lee", examplePlayer 2 "Bo" "Kim"]
    matchesTable := []
    match_participants := []
    match_statistics := [exStatRow1, exStatRow2, exStatRow3]
    head_to_head := [] }

end Examples

section SpecSideDefinitions

/-- Summed winners over a player's statistics rows. -/
def wSum (db : DB) (pid : Int) : Nat :=
  ((statRowsOf db pid).map (·.winners)).sum

/-- Summed unforced errors over a player's statistics rows. -/
def ueSum (db : DB) (pid : Int) : Nat :=
  ((statRowsOf db pid).map (·.unforced_errors)).sum

/-- Summed count of one shot type over a player's statistics rows. -/
def shotSum (db : DB) (pid : Int) (f : StatRow → Nat) : Nat :=
  ((statRowsOf db pid).map f).sum

/-- The sum of the seven shot-type sums. -/
def shotTotal (db : DB) (pid : Int) : Nat :=
  shotSum db pid (·.smashes) + shotSum db pid (·.clears) +
  shotSum db pid (·.drops) + shotSum db pid (·.drives) +
  shotSum db pid (·.net_shots) + shotSum db pid (·.lobs) +
  shotSum db pid (·.kills)

/-- One shot type's percentage:
`round(shotSum / total_shots * 100, 2)` when `total_shots > 0`, else 0. -/
def shotPct (db : DB) (pid : Int) (f : StatRow → Nat) : ℚ :=
  if 0 < shotTotal db pid then
    round2 ((shotSum db pid f : ℚ) / (shotTotal db pid : ℚ) * 100)
  else 0

/-- The bucket selection as the specification words it: the first bucket,
in the order short, medium, long, whose win rate is maximal among the
three. -/
def specPreferred (s m l : ℚ) : String :=
  if s ≥ m ∧ s ≥ l then "short"
  else if m ≥ l then "medium"
  else "long"

/-- Rank of the recent-form bands: Poor < Average < Good < Excellent. -/
def formRank : String → Nat
  | "Average" => 1
  | "Good" => 2
  | "Excellent" => 3
  | _ => 0

/-- The shot-distribution record the code computes for `exDB9`'s player 1
(the specification's worked example): all seven percentages are exact. -/
def ex9Dist : ShotDist :=
  { smash_percentage := 30
    clear_percentage := 20
    drop_percentage := 10
    drive_percentage := 10
    net_shot_percentage := 10
    lob_percentage := 10
    kill_percentage := 10
    total_shots := 100
    winner_to_error_ratio := .fin 2 }

/-- The rally-length analysis the code computes for `exDB9`'s player 1:
all rally counters are zero, so every win rate is 0 and the first bucket
wins the tie. -/
def ex9Rally : RallyResult :=
  { raw :=
      { total_short_rallies := some 0
        short_rallies_won := some 0
        total_medium_rallies := some 0
        medium_rallies_won := some 0
        total_long_rallies := some 0
        long_rallies_won := some 0
        total_matches := 1 }
    short_rally_win_rate := 0
    medium_rally_win_rate := 0
    long_rally_win_rate := 0
    preferred_rally_length := "short" }

end SpecSideDefinitions

section EvaluationLemmas

/-- Player 1's statistics rows in `exDB9`. -/
lemma statRows9_1 : statRowsOf exDB9 1 = [exStatRow1] := rfl

/-- Player 1's averaged winner/error ratio in `exDB9` is 20/10 = 2. -/
lemma summary9_ratio :
    (get_player_statistics_summary exDB9 1).winner_to_error_ratio = some 2 := by
  simp only [get_player_statistics_summary, statRows9_1]
  norm_num [avgRatio, sqlAvg, exStatRow1, List.filterMap_cons, List.filterMap_nil]

/-- Player 1's ace percentage in `exDB9` is 5/100 * 100 = 5. -/
lemma summary9_ace :
    (get_player_statistics_summary exDB9 1).ace_percentage = some 5 := by
  simp only [get_player_statistics_summary, statRows9_1]
  norm_num [avgRatioPct, sqlAvg, exStatRow1, List.filterMap_cons, List.filterMap_nil]

/-- The shot distribution for player 1 of `exDB9`. -/
lemma shot9_dist : (get_shot_distribution_analysis exDB9 1).dist = some ex9Dist := by
  simp only [get_shot_distribution_analysis, statRows9_1]
  norm_num [sqlSum, ex9Dist, exStatRow1, round2, round_ofNat]

/-- The rally-length analysis for player 1 of `exDB9` (all counters 0). -/
lemma rally9 : get_rally_length_analysis exDB9 1 = .ok ex9Rally := rfl

/-- The strengths/weaknesses block for player 1 of `exDB9`. -/
lemma scouting9 : scoutingStrengths exDB9 1 =
    .ok (["Excellent shot accuracy and low error rate",
          "Aggressive attacking style",
          "Quick point finishing ability"], []) := by
  simp only [scoutingStrengths, rally9, summary9_ratio, summary9_ace, shot9_dist]
  norm_num [thresholdPick, pyGtO, pyLtO, ex9Dist, ex9Rally]

end EvaluationLemmas

/-- C1: the spec says every core lookup on a non-existent id (or an id
with no statistics rows) yields an empty/absent result and never an
unhandled exception.  The code contradicts this: for a player with no
`match_statistics` rows, the SQL sums are `NULL` and
`get_rally_length_analysis` evaluates `None > 0`, raising `TypeError`;
`generate_scouting_report` calls it and crashes the same way.  This
theorem evaluates the code at the failing input: player 1 of `exDB1`
exists but has no statistics rows. -/
theorem rally_analysis_crashes_on_missing_stats :
    get_rally_length_analysis exDB1 1 = .error .typeError ∧
    scoutingStrengths exDB1 1 = .error .typeError := by
  constructor <;> rfl

/-- C2 counterexample: player 1 exists in `exDB1` with zero participations
(hence zero completed matches), yet `get_player_profile` returns a present
record (the `players` row survives the LEFT JOINs), not an empty result as
the claim states. -/
theorem player_profile_present_for_matchless_player :
    exDB1.match_participants = [] ∧
    (get_player_profile exDB1 1).isSome = true := by
  constructor <;> rfl

/-- C3 counterexample: player 3 of `exDB9` has one statistics row with 0
winners and 0 unforced errors; the code still returns `+infinity` for
`winner_to_error_ratio`, while the claim demands a finite value when
winners = 0 and unforced errors = 0. -/
theorem ratio_inf_with_zero_winners :
    (get_shot_distribution_analysis exDB9 3).dist.map
      (fun d => d.winner_to_error_ratio) = some PyNum.inf ∧
    wSum exDB9 3 = 0 ∧ ueSum exDB9 3 = 0 := by
  refine ⟨rfl, rfl, rfl⟩

/-- C9 counterexample: on the spec's worked example row (smashes 30,
clears 20, drops 10, drives 10, net shots 10, lobs 10, kills 10) the code
computes `total_shots = 100` and `smash_percentage = 30.0`, not the
claimed `total_shots = 90` and `smash_percentage = 33.33` (the spec's
example forgot the kills in the total). -/
theorem worked_example_total_shots_100 :
    (get_shot_distribution_analysis exDB9 1).dist.map
      (fun d => d.total_shots) = some 100 ∧
    (get_shot_distribution_analysis exDB9 1).dist.map
      (fun d => d.smash_percentage) = some 30 := by
  rw [shot9_dist]
  constructor <;> rfl

/-- C9 amended: on the worked example the code yields `total_shots = 100`,
`smash_percentage = 30.0` and `winner_to_error_ratio = 2.0`, and the
scouting report's strengths include the accuracy strength and the
attacking strength while the weaknesses exclude the errors weakness. -/
theorem worked_example_end_to_end :
    (get_shot_distribution_analysis exDB9 1).dist = some ex9Dist ∧
    ex9Dist.total_shots = 100 ∧
    ex9Dist.smash_percentage = 30 ∧
    ex9Dist.winner_to_error_ratio = PyNum.fin 2 ∧
    ∃ sw, scoutingStrengths exDB9 1 = .ok sw ∧
      "Excellent shot accuracy and low error rate" ∈ sw.1 ∧
      "Aggressive attacking style" ∈ sw.1 ∧
      "High unforced error rate" ∉ sw.2 := by
  refine ⟨shot9_dist, rfl, rfl, rfl,
    ⟨(["Excellent shot accuracy and low error rate",
       "Aggressive attacking style",
       "Quick point finishing ability"], []), scouting9, ?_, ?_, ?_⟩⟩ <;> decide

/-- C10: the head-to-head lookup is symmetric in its two arguments: the
query parameters are `(min, max, min, max)` of the pair, so both argument
orders produce the same query and result. -/
theorem head_to_head_symm (db : DB) (a b : Int) :
    get_head_to_head db a b = get_head_to_head db b a := by
  unfold get_head_to_head
  rw [min_comm a b, max_comm a b]

/-- C2 amended: for a player that exists in the store and has zero
completed matches, `get_player_profile` returns a present (non-empty)
profile record with `total_matches = 0` — not an empty result and not an
exception; the empty result occurs only when no `players` row has the
requested id. -/
theorem profile_zero_completed_matches (db : DB) (pid : Int) (p : Player)
    (hp : db.players.find? (fun q => q.player_id == pid) = some p)
    (hzero : ∀ mp ∈ db.match_participants, mp.player_id = pid →
      db.matchesTable.filter
        (fun m => m.match_id == mp.match_id && m.status == "COMPLETED") = []) :
    ∃ rec, get_player_profile db pid = some rec ∧ rec.total_matches = 0 := by
  have hc : (profileJoinRows db pid).filterMap (fun r => r.2) = [] := by
    apply List.filterMap_eq_nil_iff.mpr
    intro r hr
    unfold profileJoinRows at hr
    by_cases hm :
        (db.match_participants.filter (fun mp => mp.player_id == pid)).isEmpty
    · simp only [hm, if_pos] at hr
      simp only [List.mem_singleton] at hr
      subst hr
      rfl
    · simp only [hm, if_neg, Bool.false_eq_true, not_false_iff,
        List.mem_flatMap] at hr
      obtain ⟨mp, hmp, hr2⟩ := hr
      have hmp' := List.mem_filter.mp hmp
      have hz := hzero mp hmp'.1 (by simpa using hmp'.2)
      rw [hz] at hr2
      simp only [List.isEmpty_nil, if_pos, List.mem_singleton] at hr2
      subst hr2
      rfl
  unfold get_player_profile
  rw [hp]
  refine ⟨_, rfl, ?_⟩
  simp [hc]

/-- C2 witness: the amended theorem applied to `exDB1`, whose player 1
exists and has no participations at all. -/
theorem profile_zero_completed_matches_witness :
    ∃ rec, get_player_profile exDB1 1 = some rec ∧ rec.total_matches = 0 :=
  profile_zero_completed_matches exDB1 1 (examplePlayer 1 "Ana" "Lee") rfl
    (by intro mp h; simp [exDB1] at h)

/-- A player whose shot-distribution result carries the distribution keys
has at least one statistics row. -/
lemma statRows_ne_nil_of_dist_some (db : DB) (pid : Int) (d : ShotDist)
    (h : (get_shot_distribution_analysis db pid).dist = some d) :
    (statRowsOf db pid).isEmpty = false := by
  by_contra hne
  have he : (statRowsOf db pid).isEmpty = true := by
    revert hne
    cases (statRowsOf db pid).isEmpty <;> simp
  have hlen : (statRowsOf db pid).length = 0 := by
    simpa [List.isEmpty_iff_length_eq_zero] using he
  unfold get_shot_distribution_analysis at h
  simp only [hlen] at h
  simp at h

/-- Characterization of the distribution record computed in the
`total_matches > 0` branch of `get_shot_distribution_analysis`. -/
lemma shot_dist_spec (db : DB) (pid : Int) (d : ShotDist)
    (h : (get_shot_distribution_analysis db pid).dist = some d) :
    d = { smash_percentage := shotPct db pid (·.smashes)
          clear_percentage := shotPct db pid (·.clears)
          drop_percentage := shotPct db pid (·.drops)
          drive_percentage := shotPct db pid (·.drives)
          net_shot_percentage := shotPct db pid (·.net_shots)
          lob_percentage := shotPct db pid (·.lobs)
          kill_percentage := shotPct db pid (·.kills)
          total_shots := shotTotal db pid
          winner_to_error_ratio :=
            if 0 < ueSum db pid then
              PyNum.fin (round2 ((wSum db pid : ℚ) / (ueSum db pid : ℚ)))
            else PyNum.inf } := by
  have hne := statRows_ne_nil_of_dist_some db pid d h
  have hpos : 0 < (statRowsOf db pid).length := by
    rcases List.exists_cons_of_ne_nil (by simpa using hne) with ⟨x, xs, hx⟩
    simp [hx]
  unfold get_shot_distribution_analysis at h
  simp only [sqlSum, hne, Bool.false_eq_true, if_false, Option.getD_some,
    if_pos hpos] at h
  rw [Option.some_inj] at h
  rw [← h]
  rfl

/-- Rounding to 2 decimals preserves non-negativity. -/
lemma round2_nonneg (x : ℚ) (hx : 0 ≤ x) : 0 ≤ round2 x := by
  unfold round2
  apply div_nonneg _ (by norm_num : (0:ℚ) ≤ 100)
  have h : (0:ℤ) ≤ round (100 * x) := by
    rw [round_eq]
    apply Int.le_floor.mpr
    push_cast
    linarith
  exact_mod_cast h

/-- C3 amended: `winner_to_error_ratio` is `+infinity` exactly when the
summed unforced errors are 0 (also when winners are 0), and otherwise is
the finite non-negative value `round(winners / unforced_errors, 2)`. -/
theorem ratio_infinity_iff (db : DB) (pid : Int) (d : ShotDist)
    (h : (get_shot_distribution_analysis db pid).dist = some d) :
    (d.winner_to_error_ratio = PyNum.inf ↔ ueSum db pid = 0) ∧
    (0 < ueSum db pid →
      d.winner_to_error_ratio =
        PyNum.fin (round2 ((wSum db pid : ℚ) / (ueSum db pid : ℚ))) ∧
      0 ≤ round2 ((wSum db pid : ℚ) / (ueSum db pid : ℚ))) := by
  have hd := shot_dist_spec db pid d h
  constructor
  · rw [hd]
    by_cases hue : 0 < ueSum db pid
    · simp only [if_pos hue]
      constructor
      · intro hfin
        exact absurd hfin (by simp)
      · intro h0
        omega
    · simp only [if_neg hue]
      simp only [true_iff]
      omega
  · intro hue
    rw [hd]
    refine ⟨by simp [if_pos hue], ?_⟩
    apply round2_nonneg
    positivity

/-- C3 witness: the amended ratio law instantiated on `exDB9`'s player 1
(20 winners, 10 unforced errors). -/
theorem ratio_infinity_iff_witness :
    (ex9Dist.winner_to_error_ratio = PyNum.inf ↔ ueSum exDB9 1 = 0) ∧
    (0 < ueSum exDB9 1 →
      ex9Dist.winner_to_error_ratio =
        PyNum.fin (round2 ((wSum exDB9 1 : ℚ) / (ueSum exDB9 1 : ℚ))) ∧
      0 ≤ round2 ((wSum exDB9 1 : ℚ) / (ueSum exDB9 1 : ℚ))) :=
  ratio_infinity_iff exDB9 1 ex9Dist shot9_dist

/-- Rounding to 2 decimals moves a value by at most 1/200. -/
lemma abs_round2_sub (x : ℚ) : |round2 x - x| ≤ 1/200 := by
  have h := abs_sub_round (100 * x)
  rw [abs_sub_comm] at h
  unfold round2
  have heq : (round (100 * x) : ℚ)/100 - x = ((round (100*x) : ℚ) - 100*x)/100 := by
    ring
  rw [heq, abs_div, abs_of_pos (show (0:ℚ) < 100 by norm_num)]
  linarith

/-- Seven percentages of parts of a positive total, each rounded to two
decimals, sum to 100 within 7/200 < 1/10. -/
lemma pct_sum_near_100 (a b c d e f g T : ℕ)
    (hT : T = a + b + c + d + e + f + g) (hpos : 0 < T) :
    |round2 ((a:ℚ)/T*100) + round2 ((b:ℚ)/T*100) + round2 ((c:ℚ)/T*100) +
      round2 ((d:ℚ)/T*100) + round2 ((e:ℚ)/T*100) + round2 ((f:ℚ)/T*100) +
      round2 ((g:ℚ)/T*100) - 100| ≤ 1/10 := by
  have hT0 : (0:ℚ) < (T:ℚ) := by exact_mod_cast hpos
  have hsum : (a:ℚ)/T*100 + (b:ℚ)/T*100 + (c:ℚ)/T*100 + (d:ℚ)/T*100 +
      (e:ℚ)/T*100 + (f:ℚ)/T*100 + (g:ℚ)/T*100 = 100 := by
    field_simp
    rw [hT]
    push_cast
    ring
  have h1 := abs_round2_sub ((a:ℚ)/T*100)
  have h2 := abs_round2_sub ((b:ℚ)/T*100)
  have h3 := abs_round2_sub ((c:ℚ)/T*100)
  have h4 := abs_round2_sub ((d:ℚ)/T*100)
  have h5 := abs_round2_sub ((e:ℚ)/T*100)
  have h6 := abs_round2_sub ((f:ℚ)/T*100)
  have h7 := abs_round2_sub ((g:ℚ)/T*100)
  rw [abs_le] at h1 h2 h3 h4 h5 h6 h7 ⊢
  constructor <;> linarith

/-- C4: the shot distribution's `total_shots` is the sum of the seven
shot-type sums; each percentage is `round(shotSum/total_shots*100, 2)`
when `total_shots > 0` and 0 when `total_shots = 0`; consequently the
seven percentages sum to 100 within 0.1 when `total_shots > 0`, and are
all 0 when `total_shots = 0`. -/
theorem shot_percentages (db : DB) (pid : Int) (d : ShotDist)
    (h : (get_shot_distribution_analysis db pid).dist = some d) :
    d.total_shots = shotTotal db pid ∧
    d.smash_percentage = shotPct db pid (·.smashes) ∧
    d.clear_percentage = shotPct db pid (·.clears) ∧
    d.drop_percentage = shotPct db pid (·.drops) ∧
    d.drive_percentage = shotPct db pid (·.drives) ∧
    d.net_shot_percentage = shotPct db pid (·.net_shots) ∧
    d.lob_percentage = shotPct db pid (·.lobs) ∧
    d.kill_percentage = shotPct db pid (·.kills) ∧
    (0 < d.total_shots →
      |d.smash_percentage + d.clear_percentage + d.drop_percentage +
        d.drive_percentage + d.net_shot_percentage + d.lob_percentage +
        d.kill_percentage - 100| ≤ 1/10) ∧
    (d.total_shots = 0 →
      d.smash_percentage = 0 ∧ d.clear_percentage = 0 ∧
      d.drop_percentage = 0 ∧ d.drive_percentage = 0 ∧
      d.net_shot_percentage = 0 ∧ d.lob_percentage = 0 ∧
      d.kill_percentage = 0) := by
  have hd := shot_dist_spec db pid d h
  rw [hd]
  refine ⟨rfl, rfl, rfl, rfl, rfl, rfl, rfl, rfl, ?_, ?_⟩
  · intro hpos
    simp only at hpos
    simp only [shotPct, if_pos hpos]
    exact pct_sum_near_100 _ _ _ _ _ _ _ _ rfl hpos
  · intro h0
    simp only at h0
    have hn : ¬ 0 < shotTotal db pid := by omega
    simp [shotPct, if_neg hn]

/-- C4 witness: the percentage laws instantiated on `exDB9`'s player 1,
whose seven percentages are 30, 20, 10, 10, 10, 10, 10. -/
theorem shot_percentages_witness :
    ex9Dist.total_shots = shotTotal exDB9 1 ∧
    ex9Dist.smash_percentage = shotPct exDB9 1 (·.smashes) ∧
    ex9Dist.clear_percentage = shotPct exDB9 1 (·.clears) ∧
    ex9Dist.drop_percentage = shotPct exDB9 1 (·.drops) ∧
    ex9Dist.drive_percentage = shotPct exDB9 1 (·.drives) ∧
    ex9Dist.net_shot_percentage = shotPct exDB9 1 (·.net_shots) ∧
    ex9Dist.lob_percentage = shotPct exDB9 1 (·.lobs) ∧
    ex9Dist.kill_percentage = shotPct exDB9 1 (·.kills) ∧
    (0 < ex9Dist.total_shots →
      |ex9Dist.smash_percentage + ex9Dist.clear_percentage +
        ex9Dist.drop_percentage + ex9Dist.drive_percentage +
        ex9Dist.net_shot_percentage + ex9Dist.lob_percentage +
        ex9Dist.kill_percentage - 100| ≤ 1/10) ∧
    (ex9Dist.total_shots = 0 →
      ex9Dist.smash_percentage = 0 ∧ ex9Dist.clear_percentage = 0 ∧
      ex9Dist.drop_percentage = 0 ∧ ex9Dist.drive_percentage = 0 ∧
      ex9Dist.net_shot_percentage = 0 ∧ ex9Dist.lob_percentage = 0 ∧
      ex9Dist.kill_percentage = 0) :=
  shot_percentages exDB9 1 ex9Dist shot9_dist

/-- Python's stable 3-element `max` by value agrees with the
first-maximal-bucket selection the spec describes. -/
lemma pyMax3_eq_spec (s m l : ℚ) :
    (pyMaxByVal ("short", s) [("medium", m), ("long", l)]).1 =
      specPreferred s m l := by
  simp only [pyMaxByVal, specPreferred]
  rcases lt_or_le s m with h1 | h1
  · rw [if_pos (show m > s from h1)]
    rcases lt_or_le m l with h2 | h2
    · rw [if_pos (show l > (("medium", m) : String × ℚ).2 from h2),
        if_neg (by push_neg; intro hsm; linarith),
        if_neg (by linarith)]
    · rw [if_neg (show ¬ l > (("medium", m) : String × ℚ).2 from not_lt.mpr h2),
        if_neg (by push_neg; intro hsm; linarith),
        if_pos h2]
  · rw [if_neg (show ¬ m > s from not_lt.mpr h1)]
    rcases lt_or_le s l with h3 | h3
    · rw [if_pos (show l > (("short", s) : String × ℚ).2 from h3),
        if_neg (by push_neg; intro hsm; linarith),
        if_neg (by linarith)]
    · rw [if_neg (show ¬ l > (("short", s) : String × ℚ).2 from not_lt.mpr h3),
        if_pos ⟨h1, h3⟩]

/-- The spec-side bucket selection always names one of the three buckets. -/
lemma specPreferred_mem (s m l : ℚ) :
    specPreferred s m l ∈ (["short", "medium", "long"] : List String) := by
  unfold specPreferred
  split_ifs <;> simp

/-- C5: every successfully computed rally-length analysis has
`preferred_rally_length` among short/medium/long, and it equals the first
bucket (in the order short, medium, long) whose win rate is maximal. -/
theorem preferred_rally_first_max (db : DB) (pid : Int) (r : RallyResult)
    (h : get_rally_length_analysis db pid = .ok r) :
    r.preferred_rally_length ∈ (["short", "medium", "long"] : List String) ∧
    r.preferred_rally_length =
      specPreferred r.short_rally_win_rate r.medium_rally_win_rate
        r.long_rally_win_rate := by
  unfold get_rally_length_analysis at h
  dsimp only at h
  split at h
  · exact absurd h (by simp)
  · split at h
    · exact absurd h (by simp)
    · split at h
      · exact absurd h (by simp)
      · rw [Except.ok.injEq] at h
        rw [← h]
        exact ⟨by rw [pyMax3_eq_spec]; exact specPreferred_mem _ _ _,
          pyMax3_eq_spec _ _ _⟩

/-- C5 witness: on `exDB9`'s player 1 all three win rates are 0 and the
tie goes to the first bucket, "short". -/
theorem preferred_rally_first_max_witness :
    ex9Rally.preferred_rally_length ∈ (["short", "medium", "long"] : List String) ∧
    ex9Rally.preferred_rally_length =
      specPreferred ex9Rally.short_rally_win_rate ex9Rally.medium_rally_win_rate
        ex9Rally.long_rally_win_rate :=
  preferred_rally_first_max exDB9 1 ex9Rally rally9

/-- C6 counterexample: for the distinct ids 1 and 2 on `exDB1` (player 1
has no statistics rows), `compare_players [1, 2]` does not return a
mapping at all: the rally-length analysis inside the loop raises
`TypeError`, which propagates. -/
theorem compare_players_crashes_on_missing_stats :
    (1 : Int) ≠ 2 ∧ compare_players exDB1 [1, 2] = .error .typeError :=
  ⟨by decide, rfl⟩

/-- C6 amended: `compare_players` raises `ValueError` ("at least 2
players required") on the empty list and on a singleton; for two distinct
ids whose per-player records both compute (in particular, each id has at
least one statistics row, so the rally-length analysis does not raise),
it returns a mapping whose key list is exactly `[x, y]`. -/
theorem compare_players_arity_and_keys (db : DB) (x y : Int) (hxy : x ≠ y)
    (hx : (comparisonRecord db x).isOk = true)
    (hy : (comparisonRecord db y).isOk = true) :
    compare_players db [] = .error .valueError ∧
    compare_players db [x] = .error .valueError ∧
    ∃ m, compare_players db [x, y] = .ok m ∧ m.map Prod.fst = [x, y] := by
  refine ⟨rfl, rfl, ?_⟩
  obtain ⟨rx, hrx⟩ : ∃ rx, comparisonRecord db x = .ok rx := by
    cases hcx : comparisonRecord db x with
    | error e => rw [hcx] at hx; exact absurd hx (by simp [Except.isOk, Except.toBool])
    | ok rx => exact ⟨rx, rfl⟩
  obtain ⟨ry, hry⟩ : ∃ ry, comparisonRecord db y = .ok ry := by
    cases hcy : comparisonRecord db y with
    | error e => rw [hcy] at hy; exact absurd hy (by simp [Except.isOk, Except.toBool])
    | ok ry => exact ⟨ry, rfl⟩
  refine ⟨[(x, rx), (y, ry)], ?_, rfl⟩
  have hlen : ¬ ([x, y].length < 2) := by simp
  unfold compare_players
  rw [if_neg hlen]
  simp only [List.foldlM, hrx, hry]
  have hins1 : dictInsert [] x rx = [(x, rx)] := rfl
  have hne : (x == y) = false := by
    simp only [beq_eq_false_iff_ne, ne_eq]
    exact hxy
  have hins2 : dictInsert [(x, rx)] y ry = [(x, rx), (y, ry)] := by
    unfold dictInsert
    simp [hne]
  rw [show dictInsert [] x rx = [(x, rx)] from hins1]
  exact congrArg Except.ok hins2

/-- Membership in the strengths list ignores the three leading optional
singletons when the sought string differs from all three. -/
lemma mem_strengths_iff (t : String) (b1 b2 b3 : Bool) (L : List String)
    (h1 : t ≠ "Excellent shot accuracy and low error rate")
    (h2 : t ≠ "Strong serving game")
    (h3 : t ≠ "Aggressive attacking style") :
    (t ∈ (if b1 then ["Excellent shot accuracy and low error rate"] else []) ++
         (if b2 then ["Strong serving game"] else []) ++
         (if b3 then ["Aggressive attacking style"] else []) ++ L) ↔ t ∈ L := by
  cases b1 <;> cases b2 <;> cases b3 <;> simp [h1, h2, h3]

/-- C7: every produced scouting report contains exactly one of the two
rally-comparison strengths — the endurance strength exactly when the long
rally win rate strictly exceeds the short one, the quick-finishing
strength otherwise. -/
theorem scouting_exactly_one_rally_strength (db : DB) (pid : Int)
    (s w : List String) (h : scoutingStrengths db pid = .ok (s, w)) :
    (("Strong endurance and long rally performance" ∈ s ∧
      "Quick point finishing ability" ∉ s) ∨
     ("Quick point finishing ability" ∈ s ∧
      "Strong endurance and long rally performance" ∉ s)) ∧
    (∀ r, get_rally_length_analysis db pid = .ok r →
      ("Strong endurance and long rally performance" ∈ s ↔
        r.long_rally_win_rate > r.short_rally_win_rate)) := by
  unfold scoutingStrengths at h
  dsimp only at h
  cases hra : get_rally_length_analysis db pid with
  | error e => rw [hra] at h; exact absurd h (by simp)
  | ok ra =>
    rw [hra] at h
    cases htp1 : thresholdPick
        (get_player_statistics_summary db pid).winner_to_error_ratio
        (3/2) (4/5) with
    | error e => rw [htp1] at h; exact absurd h (by simp)
    | ok p1 =>
      obtain ⟨accB, errB⟩ := p1
      rw [htp1] at h
      cases htp2 : thresholdPick
          (get_player_statistics_summary db pid).ace_percentage 8 3 with
      | error e => rw [htp2] at h; exact absurd h (by simp)
      | ok p2 =>
        obtain ⟨serveB, serveWB⟩ := p2
        rw [htp2] at h
        rw [Except.ok.injEq, Prod.mk.injEq] at h
        obtain ⟨hs, hw⟩ := h
        rw [← hs]
        have hmem := fun t h1 h2 h3 =>
          mem_strengths_iff t accB serveB
            (decide (((get_shot_distribution_analysis db pid).dist.map
              (·.smash_percentage)).getD 0 > 25))
            (if decide (ra.long_rally_win_rate > ra.short_rally_win_rate) = true
             then ["Strong endurance and long rally performance"]
             else ["Quick point finishing ability"]) h1 h2 h3
        constructor
        · by_cases hlr : ra.long_rally_win_rate > ra.short_rally_win_rate
          · left
            constructor
            · rw [hmem _ (by decide) (by decide) (by decide)]
              simp [hlr]
            · rw [hmem _ (by decide) (by decide) (by decide)]
              simp [hlr]
          · right
            constructor
            · rw [hmem _ (by decide) (by decide) (by decide)]
              simp [hlr]
            · rw [hmem _ (by decide) (by decide) (by decide)]
              simp [hlr]
        · intro r hr
          obtain rfl : ra = r := Except.ok.inj hr
          rw [hmem _ (by decide) (by decide) (by decide)]
          by_cases hlr : ra.long_rally_win_rate > ra.short_rally_win_rate
          · simp [hlr]
          · simp [hlr]

/-- C7 witness: for player 1 of `exDB9` (all rally rates 0, so long does
not exceed short) the produced strengths contain the quick-finishing
strength and not the endurance strength. -/
theorem scouting_exactly_one_rally_strength_witness :
    (("Strong endurance and long rally performance" ∈
        ["Excellent shot accuracy and low error rate",
         "Aggressive attacking style", "Quick point finishing ability"] ∧
      "Quick point finishing ability" ∉
        ["Excellent shot accuracy and low error rate",
         "Aggressive attacking style", "Quick point finishing ability"]) ∨
     ("Quick point finishing ability" ∈
        ["Excellent shot accuracy and low error rate",
         "Aggressive attacking style", "Quick point finishing ability"] ∧
      "Strong endurance and long rally performance" ∉
        ["Excellent shot accuracy and low error rate",
         "Aggressive attacking style", "Quick point finishing ability"])) ∧
    (∀ r, get_rally_length_analysis exDB9 1 = .ok r →
      ("Strong endurance and long rally performance" ∈
          ["Excellent shot accuracy and low error rate",
           "Aggressive attacking style", "Quick point finishing ability"] ↔
        r.long_rally_win_rate > r.short_rally_win_rate)) :=
  scouting_exactly_one_rally_strength exDB9 1
    ["Excellent shot accuracy and low error rate",
     "Aggressive attacking style", "Quick point finishing ability"] []
    scouting9

/-- C8: the recent-form classifier returns "No recent data" on the empty
list, classifies non-empty lists by the stated win-rate bands, and is
monotone: a higher win rate never yields a band lower in the order
Poor < Average < Good < Excellent. -/
theorem recent_form_bands_monotone :
    calculate_recent_form [] = "No recent data" ∧
    (∀ l : List RecentRow, l ≠ [] →
      calculate_recent_form l =
        (if recentWinRate l ≥ 80 then "Excellent"
         else if recentWinRate l ≥ 60 then "Good"
         else if recentWinRate l ≥ 40 then "Average"
         else "Poor")) ∧
    (∀ l₁ l₂ : List RecentRow, l₁ ≠ [] → l₂ ≠ [] →
      recentWinRate l₁ ≤ recentWinRate l₂ →
      formRank (calculate_recent_form l₁) ≤
        formRank (calculate_recent_form l₂)) := by
  have hform : ∀ l : List RecentRow, l ≠ [] →
      calculate_recent_form l =
        (if recentWinRate l ≥ 80 then "Excellent"
         else if recentWinRate l ≥ 60 then "Good"
         else if recentWinRate l ≥ 40 then "Average"
         else "Poor") := by
    intro l hl
    unfold calculate_recent_form
    rw [if_neg (by simpa [List.isEmpty_iff] using hl)]
    rfl
  refine ⟨rfl, hform, ?_⟩
  intro l₁ l₂ h₁ h₂ hle
  rw [hform l₁ h₁, hform l₂ h₂]
  split_ifs <;> first | decide | (exfalso; linarith)

/-- C8 witness: monotonicity applied to two concrete singleton match
lists with equal win rates. -/
theorem recent_form_bands_monotone_witness :
    formRank (calculate_recent_form [{ is_winner := some 1 }]) ≤
      formRank (calculate_recent_form [{ is_winner := some 1 }]) :=
  recent_form_bands_monotone.2.2 [{ is_winner := some 1 }]
    [{ is_winner := some 1 }] (by decide) (by decide) (le_refl _)

/-- C6 witness: the amended comparison law instantiated on `exDB9` with
the distinct ids 1 and 2, both of which have statistics rows. -/
theorem compare_players_arity_and_keys_witness :
    compare_players exDB9 [] = .error .valueError ∧
    compare_players exDB9 [1] = .error .valueError ∧
    ∃ m, compare_players exDB9 [1, 2] = .ok m ∧
      m.map Prod.fst = [1, 2] :=
  compare_players_arity_and_keys exDB9 1 2 (by decide) rfl rfl
